import Mathlib

/-!
Verification of the core extraction logic of `instagram_scraper.py`
(class `InstagramScraperPython`), shallowly embedded in Lean.

Modelling conventions:
* Python values flowing through the scraper (parsed JSON, the dicts the
  scraper builds) are modelled by the inductive type `Json`.  JSON numbers
  are carried as exact rationals; Python's `float` is modelled by exact
  decimal arithmetic (the claims only involve values on which binary
  floating point and exact arithmetic agree).
* Fallible Python expressions are modelled in `Except PyErr`; a raised
  exception is an `Except.error`.  A `try/except` is a `match` on that
  result.
* `requests`/BeautifulSoup are outside the core: a fetched HTML page is
  modelled as a `Doc` (the list of `script` node strings plus the three
  OpenGraph meta `content` attributes, `none` when the tag or attribute is
  absent), and each JSON endpoint response as an `EndpointResp`.
* `float(...)` parsing covers sign, decimal digits, decimal point and
  exponent; `inf`/`nan`/underscore separators and surrounding whitespace
  are not modelled (unreachable from the count strings at issue).
* `json.loads` is modelled by an executable recursive-descent parser over
  the character list; `\uXXXX` escapes and the strict control-character /
  leading-zero checks are not modelled (immaterial to the claims).
-/

/-- The kinds of Python exceptions the modelled code can raise. -/
inductive PyErr where
  | typeErr
  | keyErr
  | idxErr
  | attrErr
  | jsonDecodeErr
deriving DecidableEq

/-- Python's `str(e)` for the modelled exceptions (abbreviated). -/
def pyErrMsg : PyErr → String
  | .typeErr => "TypeError"
  | .keyErr => "KeyError"
  | .idxErr => "IndexError"
  | .attrErr => "AttributeError"
  | .jsonDecodeErr => "JSONDecodeError"

/-- Python values the scraper manipulates: parsed JSON plus the dicts it
builds (`None`, `bool`, numbers, `str`, `list`, `dict`). -/
inductive Json where
  | null
  | bool (b : Bool)
  | num (q : ℚ)
  | str (s : String)
  | arr (l : List Json)
  | obj (l : List (String × Json))

/-- Result dict of `get_user_data_requests` / `get_user_data_json_endpoint`:
either `{'success': True, 'method': m, 'data': d}` or
`{'success': False, 'error': e}`. -/
inductive ExtractionResult where
  | success (method : String) (data : Json)
  | failure (error : String)

/-- Helper: embed an `Int` into the rationals carried by `Json.num`. -/
def intQ (n : Int) : ℚ := (n : ℚ)

/-- Lookup in a Python dict built from an association list; duplicate keys
follow `json.loads` semantics (the last binding wins). -/
def dictFind : List (String × Json) → String → Option Json
  | [], _ => none
  | kv :: rest, k =>
    match dictFind rest k with
    | some v => some v
    | none => if kv.1 == k then some kv.2 else none

/-- Python `d.get(k, default)`: only dicts have `.get`; any other value
raises `AttributeError`. -/
def pyGet (v : Json) (k : String) (d : Json) : Except PyErr Json :=
  match v with
  | .obj kvs => .ok ((dictFind kvs k).getD d)
  | _ => .error .attrErr

/-- Substring test (Python `needle in haystack` on strings). -/
def containsSub (needle : List Char) : List Char → Bool
  | [] => needle.isEmpty
  | c :: cs => needle.isPrefixOf (c :: cs) || containsSub needle cs

/-- Python `k in v` for a string key `k`: key membership on dicts,
substring on strings, element equality on lists; `TypeError` on any
non-container. -/
def pyIn (k : String) (v : Json) : Except PyErr Bool :=
  match v with
  | .obj kvs => .ok (kvs.any (fun kv => kv.1 == k))
  | .str s => .ok (containsSub k.data s.data)
  | .arr l => .ok (l.any (fun x => match x with | .str s => s == k | _ => false))
  | _ => .error .typeErr

/-- Python `v[k]` for a string key `k`: dict lookup (`KeyError` when the
key is absent); `TypeError` on strings, lists and non-containers. -/
def getItemStr (v : Json) (k : String) : Except PyErr Json :=
  match v with
  | .obj kvs =>
    match dictFind kvs k with
    | some x => .ok x
    | none => .error .keyErr
  | _ => .error .typeErr

/-- Python `v[0]`: list head (`IndexError` when empty), first character of
a string, `KeyError` on dicts (integer key), `TypeError` otherwise. -/
def getIndex0 (v : Json) : Except PyErr Json :=
  match v with
  | .arr (x :: _) => .ok x
  | .arr [] => .error .idxErr
  | .str s =>
    match s.data with
    | c :: _ => .ok (.str (String.mk [c]))
    | [] => .error .idxErr
  | .obj _ => .error .keyErr
  | _ => .error .typeErr

/-- Python truthiness of a modelled value. -/
def truthyJson : Json → Bool
  | .null => false
  | .bool b => b
  | .num q => q != 0
  | .str s => !s.data.isEmpty
  | .arr l => !l.isEmpty
  | .obj l => !l.isEmpty

/-- An optional string (`None` or `str`) as a modelled Python value. -/
def optStrJson : Option String → Json
  | none => .null
  | some s => .str s

/-- Field access on a produced record (for stating properties). -/
def getField (r : Json) (k : String) : Option Json :=
  match r with
  | .obj kvs => dictFind kvs k
  | _ => none

/-! ### CountParser: `_convert_count` (source lines 189-210) -/

/-- `count_str.replace(',', '')`. -/
def stripCommas (cs : List Char) : List Char := cs.filter (fun c => !(c == ','))

/-- `s.endswith(c)` for a single character. -/
def endsC (cs : List Char) (c : Char) : Bool :=
  match cs.getLast? with
  | some d => d == c
  | none => false

/-- The suffix step of `_convert_count`: case-sensitive `endswith` tests
for `'K'`, `'M'`, `'B'`, returning the multiplier and the remainder. -/
def suffixSplit (cs : List Char) : Int × List Char :=
  if endsC cs 'K' then (1000, cs.dropLast)
  else if endsC cs 'M' then (1000000, cs.dropLast)
  else if endsC cs 'B' then (1000000000, cs.dropLast)
  else (1, cs)

/-- Decimal digit run to a natural number. -/
def digitsToNat (acc : Nat) : List Char → Nat
  | [] => acc
  | c :: cs => digitsToNat (acc * 10 + (c.toNat - 48)) cs

/-- Python `float(s)` on the modelled grammar
`[+-]? (digits [. digits?] | . digits) ([eE] [+-]? digits)?`, as an exact
decimal: `some (m, p)` denotes the value `m / 10 ^ p`; `none` is
`ValueError`. -/
def parseFloatChars (cs : List Char) : Option (Int × Nat) :=
  let sgnSplit : Int × List Char :=
    match cs with
    | '+' :: t => (1, t)
    | '-' :: t => (-1, t)
    | _ => (1, cs)
  let sgn := sgnSplit.1
  let ipSplit := List.span Char.isDigit sgnSplit.2
  let ip := ipSplit.1
  let fpSplit : List Char × List Char :=
    match ipSplit.2 with
    | '.' :: t => List.span Char.isDigit t
    | _ => ([], ipSplit.2)
  let fp := fpSplit.1
  if ip.isEmpty && fp.isEmpty then none
  else
    let m : Int := sgn * (digitsToNat 0 (ip ++ fp) : Nat)
    match fpSplit.2 with
    | [] => some (m, fp.length)
    | e :: t =>
      if e == 'e' || e == 'E' then
        let esSplit : Bool × List Char :=
          match t with
          | '+' :: u => (false, u)
          | '-' :: u => (true, u)
          | _ => (false, t)
        let edSplit := List.span Char.isDigit esSplit.2
        if edSplit.1.isEmpty || !edSplit.2.isEmpty then none
        else
          let ev : Nat := digitsToNat 0 edSplit.1
          if esSplit.1 then some (m, fp.length + ev)
          else if fp.length ≤ ev then some (m * (10 : Int) ^ (ev - fp.length), 0)
          else some (m, fp.length - ev)
      else none

/-- `int(float(count_str) * multiplier)` after the suffix step: exact
decimal value scaled by the multiplier, truncated toward zero (`Int.tdiv`
is T-division, matching Python `int()` applied to a float); a parse
failure yields 0 (the `except ValueError` arm). -/
def convertCountAfter (cs : List Char) : Int :=
  match parseFloatChars (suffixSplit cs).2 with
  | some mp => Int.tdiv (mp.1 * (suffixSplit cs).1) ((10 : Int) ^ mp.2)
  | none => 0

/-- `_convert_count`: `None` and `''` short-circuit to 0 (`if not
count_str`), then commas are stripped, an uppercase suffix is split off
and the remainder is parsed and scaled. -/
def convertCount : Option String → Int
  | none => 0
  | some s => if s.data.isEmpty then 0 else convertCountAfter (stripCommas s.data)

/-! ### Regex and string-method models -/

/-- `'{'` written without a brace literal (the JSON / script delimiters). -/
def lbrace : Char := Char.ofNat 123

/-- `'}'` written without a brace literal. -/
def rbrace : Char := Char.ofNat 125

/-- One step of Python `str.replace(pat, repl)` with fuel (the fuel is the
input length, enough for the leftmost non-overlapping scan). -/
def replaceAllF (p r : List Char) : Nat → List Char → List Char
  | 0, cs => cs
  | _ + 1, [] => []
  | fuel + 1, c :: cs =>
    if p.isPrefixOf (c :: cs) && !p.isEmpty then
      r ++ replaceAllF p r fuel (List.drop (p.length - 1) cs)
    else
      c :: replaceAllF p r fuel cs

/-- Python `s.replace(pat, repl)` for a non-empty `pat`: leftmost,
non-overlapping, all occurrences. -/
def replaceAll (p r cs : List Char) : List Char := replaceAllF p r cs.length cs

/-- Character class `[\d,\.]` of the count regexes. -/
def isCountChar (c : Char) : Bool := c.isDigit || c == ',' || c == '.'

/-- Character class `[KMB]` under `re.IGNORECASE`. -/
def isKMB : Char → Bool
  | 'K' | 'M' | 'B' | 'k' | 'm' | 'b' => true
  | _ => false

/-- Python regex `\s`. -/
def isPySpace : Char → Bool
  | ' ' | '\t' | '\n' | '\r' | '\x0b' | '\x0c' => true
  | _ => false

/-- Case-insensitive literal-word prefix test (`re.IGNORECASE`). -/
def matchWordCI : List Char → List Char → Bool
  | [], _ => true
  | _ :: _, [] => false
  | w :: ws, c :: cs => (w.toLower == c.toLower) && matchWordCI ws cs

/-- Attempt of `([\d,\.]+[KMB]?)\s+<word>` anchored at the head of `cs`
(with `re.IGNORECASE`), returning group 1.  The character classes of the
pattern are pairwise disjoint on the relevant inputs, so the backtracking
search of Python's engine is equivalent to this maximal-munch match. -/
def matchCountAt (word : List Char) (cs : List Char) : Option (List Char) :=
  let runSplit := List.span isCountChar cs
  if runSplit.1.isEmpty then none
  else
    let grpSplit : List Char × List Char :=
      match runSplit.2 with
      | c :: t => if isKMB c then (runSplit.1 ++ [c], t) else (runSplit.1, runSplit.2)
      | [] => (runSplit.1, [])
    let spSplit := List.span isPySpace grpSplit.2
    if spSplit.1.isEmpty then none
    else if matchWordCI word spSplit.2 then some grpSplit.1 else none

/-- `re.search(r'([\d,\.]+[KMB]?)\s+<word>', text, re.IGNORECASE)`:
leftmost match, returning group 1. -/
def searchCount (word : List Char) : List Char → Option (List Char)
  | [] => none
  | c :: cs =>
    match matchCountAt word (c :: cs) with
    | some g => some g
    | none => searchCount word cs

/-- The marker literal `window._sharedData`. -/
def sharedMarker : List Char := "window._sharedData".data

/-- The non-greedy body scan of `re.search(r'window\._sharedData\s*=\s*({.+?});', s)`
after the opening brace: consume non-newline characters one at a time
(shortest first) until the remaining input starts with the literal two
characters brace-semicolon; returns the consumed body. -/
def scanBody (acc : List Char) : List Char → Option (List Char)
  | [] => none
  | c :: rest =>
    if c == '\n' then none
    else
      match rest with
      | a :: b :: _ =>
        if a == rbrace && b == ';' then some (acc ++ [c]) else scanBody (acc ++ [c]) rest
      | _ => scanBody (acc ++ [c]) rest

/-- Match of the `_sharedData` regex anchored at the head of `cs`,
returning group 1 (the brace-delimited object literal text). -/
def matchSharedAt (cs : List Char) : Option (List Char) :=
  if sharedMarker.isPrefixOf cs then
    let r1 := (cs.drop sharedMarker.length).dropWhile isPySpace
    match r1 with
    | c :: r2 =>
      if c == '=' then
        match r2.dropWhile isPySpace with
        | d :: r3 =>
          if d == lbrace then
            (scanBody [] r3).map (fun mid => lbrace :: mid ++ [rbrace])
          else none
        | [] => none
      else none
    | [] => none
  else none

/-- `re.search` of the `_sharedData` pattern: leftmost matching start. -/
def searchShared : List Char → Option (List Char)
  | [] => none
  | c :: cs =>
    match matchSharedAt (c :: cs) with
    | some g => some g
    | none => searchShared cs

/-! ### `json.loads` model -/

/-- JSON whitespace. -/
def isJsonWs : Char → Bool
  | ' ' | '\t' | '\n' | '\r' => true
  | _ => false

/-- JSON whitespace skip. -/
def skipWs (cs : List Char) : List Char := cs.dropWhile isJsonWs

/-- The two-character string escapes `json.loads` accepts, as an
association list (quote, backslash, slash, backspace, formfeed, newline,
carriage return, tab). -/
def escTable : List (Char × Char) :=
  [('"', '"'), ('\\', '\\'), ('/', '/'), ('b', '\x08'),
   ('f', '\x0c'), ('n', '\n'), ('r', '\x0d'), ('t', '\t')]

/-- A JSON string escape character, via the table. -/
def escChar (c : Char) : Option Char :=
  (escTable.find? (fun p => p.1 == c)).map (fun p => p.2)

/-- JSON string body after the opening quote: content and remainder. -/
def parseJStr : List Char → Option (List Char × List Char)
  | [] => none
  | c :: r =>
    if c == '"' then some ([], r)
    else if c == '\\' then
      match r with
      | [] => none
      | e :: r2 =>
        match escChar e with
        | some ec => (parseJStr r2).map (fun p => (ec :: p.1, p.2))
        | none => none
    else (parseJStr r).map (fun p => (c :: p.1, p.2))

/-- JSON fraction part: nothing, or a dot followed by at least one digit. -/
def parseFrac : List Char → Option (List Char × List Char)
  | '.' :: t =>
    let d := List.span Char.isDigit t
    if d.1.isEmpty then none else some d
  | cs => some ([], cs)

/-- JSON exponent body. -/
def parseExpBody (t : List Char) : Option (Int × List Char) :=
  let sg : Int × List Char :=
    match t with
    | '+' :: u => (1, u)
    | '-' :: u => (-1, u)
    | _ => (1, t)
  let d := List.span Char.isDigit sg.2
  if d.1.isEmpty then none else some (sg.1 * (digitsToNat 0 d.1 : Nat), d.2)

/-- JSON exponent part: nothing, or `e`/`E` with optional sign and digits. -/
def parseExp : List Char → Option (Int × List Char)
  | 'e' :: t => parseExpBody t
  | 'E' :: t => parseExpBody t
  | cs => some (0, cs)

/-- JSON number token. -/
def parseJNum (cs : List Char) : Option (ℚ × List Char) :=
  let sgn : Int × List Char :=
    match cs with
    | '-' :: t => (-1, t)
    | _ => (1, cs)
  let ip := List.span Char.isDigit sgn.2
  if ip.1.isEmpty then none
  else
    match parseFrac ip.2 with
    | none => none
    | some fp =>
      match parseExp fp.2 with
      | none => none
      | some ex =>
        let m : Int := sgn.1 * (digitsToNat 0 (ip.1 ++ fp.1) : Nat)
        some ((m : ℚ) * (10 : ℚ) ^ (ex.1 - fp.1.length), ex.2)

/-- Array elements after a non-`]` start, given a value parser `rec`;
the fuel bounds the number of elements. -/
def parseArrAux (rec : List Char → Option (Json × List Char)) :
    Nat → List Char → Option (List Json × List Char)
  | 0, _ => none
  | g + 1, cs =>
    match rec cs with
    | none => none
    | some (v, r1) =>
      match skipWs r1 with
      | c :: r2 =>
        if c == ']' then some ([v], r2)
        else if c == ',' then
          match parseArrAux rec g r2 with
          | some (vs, r3) => some (v :: vs, r3)
          | none => none
        else none
      | [] => none

/-- Object members after a non-`}` start, given a value parser `rec`. -/
def parseObjAux (rec : List Char → Option (Json × List Char)) :
    Nat → List Char → Option (List (String × Json) × List Char)
  | 0, _ => none
  | g + 1, cs =>
    match skipWs cs with
    | '"' :: r0 =>
      match parseJStr r0 with
      | none => none
      | some (kchars, r1) =>
        match skipWs r1 with
        | ':' :: r2 =>
          match rec r2 with
          | none => none
          | some (v, r3) =>
            match skipWs r3 with
            | c :: r4 =>
              if c == rbrace then some ([(String.mk kchars, v)], r4)
              else if c == ',' then
                match parseObjAux rec g r4 with
                | some (kvs, r5) => some ((String.mk kchars, v) :: kvs, r5)
                | none => none
              else none
            | [] => none
        | _ => none
    | _ => none

/-- JSON value parser; the fuel bounds the nesting depth (one level always
consumes at least the opening bracket, so `length + 1` fuel suffices). -/
def parseVal : Nat → List Char → Option (Json × List Char)
  | 0, _ => none
  | f + 1, cs0 =>
    match skipWs cs0 with
    | [] => none
    | c :: r =>
      if c == '"' then (parseJStr r).map (fun p => (.str (String.mk p.1), p.2))
      else if c == '[' then
        match skipWs r with
        | d :: r2 =>
          if d == ']' then some (.arr [], r2)
          else
            (parseArrAux (parseVal f) (r.length + 1) r).map (fun p => (.arr p.1, p.2))
        | [] => none
      else if c == lbrace then
        match skipWs r with
        | d :: r2 =>
          if d == rbrace then some (.obj [], r2)
          else
            (parseObjAux (parseVal f) (r.length + 1) r).map (fun p => (.obj p.1, p.2))
        | [] => none
      else if c == 't' then
        match r with
        | 'r' :: 'u' :: 'e' :: r2 => some (.bool true, r2)
        | _ => none
      else if c == 'f' then
        match r with
        | 'a' :: 'l' :: 's' :: 'e' :: r2 => some (.bool false, r2)
        | _ => none
      else if c == 'n' then
        match r with
        | 'u' :: 'l' :: 'l' :: r2 => some (.null, r2)
        | _ => none
      else (parseJNum (c :: r)).map (fun p => (.num p.1, p.2))

/-- `json.loads` on a character list: a full parse with only trailing
whitespace allowed; any failure is `json.JSONDecodeError`. -/
def jsonLoads (cs : List Char) : Except PyErr Json :=
  match parseVal (cs.length + 1) cs with
  | some (v, rest) => if (skipWs rest).isEmpty then .ok v else .error .jsonDecodeErr
  | none => .error .jsonDecodeErr

/-! ### ProfileNormalizer: `_extract_user_info` (source lines 126-144) -/

/-- The body of `_extract_user_info`'s `try` block: the dict literal of
source lines 129-142, each `.get` evaluated left to right.  The nested
count containers default to `{}` and their `count` sub-field to `0`;
`profile_pic` is `get('profile_pic_url_hd') or get('profile_pic_url')`. -/
def extractUserInfoBody (u : Json) : Except PyErr Json := do
  let idv ← pyGet u "id" .null
  let un ← pyGet u "username" .null
  let fn ← pyGet u "full_name" .null
  let bio ← pyGet u "biography" .null
  let fc ← pyGet u "edge_followed_by" (.obj [])
  let fol ← pyGet fc "count" (.num 0)
  let gc ← pyGet u "edge_follow" (.obj [])
  let fng ← pyGet gc "count" (.num 0)
  let pc ← pyGet u "edge_owner_to_timeline_media" (.obj [])
  let pst ← pyGet pc "count" (.num 0)
  let hd ← pyGet u "profile_pic_url_hd" .null
  let sd ← pyGet u "profile_pic_url" .null
  let pic := if truthyJson hd then hd else sd
  let iv ← pyGet u "is_verified" (.bool false)
  let ib ← pyGet u "is_business_account" (.bool false)
  let eu ← pyGet u "external_url" .null
  let ip ← pyGet u "is_private" (.bool false)
  return .obj [("id", idv), ("username", un), ("full_name", fn), ("biography", bio),
    ("followers", fol), ("following", fng), ("posts", pst), ("profile_pic", pic),
    ("is_verified", iv), ("is_business", ib), ("external_url", eu), ("is_private", ip)]

/-- `_extract_user_info`: the `try/except` wrapper — on any exception the
raw input object is returned unchanged. -/
def extractUserInfo (u : Json) : Json :=
  match extractUserInfoBody u with
  | .ok r => r
  | .error _ => u

/-! ### MetaTagExtractor: `_extract_meta_data` (source lines 146-187) -/

/-- One count field of `_extract_meta_data`: regex search over the
description for the given word, the matched group fed to `_convert_count`,
`0` when the regex does not match. -/
def metaCount (word : List Char) (bio : List Char) : Int :=
  match searchCount word bio with
  | some g => convertCount (some (String.mk g))
  | none => 0

/-- `_extract_meta_data` on the three OpenGraph `content` attributes
(`none` models an absent tag or absent `content` attribute, both of which
give `None` in the source).  The `if username:` truthiness gate yields
`None` for an absent title tag and for an empty title content alike; the
`if bio:` gate skips count extraction for an absent or empty description.
The `try/except` wrapper is dead in the model: no modelled operation here
raises. -/
def extractMetaData (title bio pic : Option String) : Option Json :=
  match title with
  | none => none
  | some u =>
    if u.data.isEmpty then none
    else
      let counts : Int × Int × Int :=
        match bio with
        | some b =>
          if b.data.isEmpty then (0, 0, 0)
          else (metaCount "Followers".data b.data,
                metaCount "Following".data b.data,
                metaCount "Posts".data b.data)
        | none => (0, 0, 0)
      some (.obj [
        ("username", .str (String.mk (replaceAll ")".data [] (replaceAll " (@".data [] u.data)))),
        ("biography", optStrJson bio),
        ("profile_pic", optStrJson pic),
        ("followers", .num (intQ counts.1)),
        ("following", .num (intQ counts.2.1)),
        ("posts", .num (intQ counts.2.2))])

/-! ### JsonEndpointExtractor: `get_user_data_json_endpoint` (lines 96-119) -/

/-- The condition `'<k>' in data and 'user' in data['<k>']`, evaluated
with Python's short-circuit semantics. -/
def branchCheck (data : Json) (k : String) : Except PyErr Bool :=
  match pyIn k data with
  | .error e => .error e
  | .ok false => .ok false
  | .ok true =>
    match getItemStr data k with
    | .error e => .error e
    | .ok v => pyIn "user" v

/-- The per-payload dispatch of source lines 103-114: the `graphql.user`
shape is tried first, then `data.user`; `some` is a returned success
(after `_extract_user_info`), `none` falls through to the next endpoint.
Only key presence is tested, never that the user value is non-null. -/
def jsonEndpointParse (data : Json) : Except PyErr (Option Json) :=
  match branchCheck data "graphql" with
  | .error e => .error e
  | .ok true =>
    match getItemStr data "graphql" with
    | .error e => .error e
    | .ok g =>
      match getItemStr g "user" with
      | .error e => .error e
      | .ok u => .ok (some (extractUserInfo u))
  | .ok false =>
    match branchCheck data "data" with
    | .error e => .error e
    | .ok true =>
      match getItemStr data "data" with
      | .error e => .error e
      | .ok dv =>
        match getItemStr dv "user" with
        | .error e => .error e
        | .ok u => .ok (some (extractUserInfo u))
    | .ok false => .ok none

/-- What one endpoint request produced, as seen by the parsing loop:
a network failure or non-200 status, a 200 body that is not JSON
(`response.json()` raises, caught by the inner `except`), or a parsed
JSON payload. -/
inductive EndpointResp where
  | netFail
  | badJson
  | payload (j : Json)

/-- `get_user_data_json_endpoint` after the HTTP layer: iterate the
endpoint responses; network errors and JSON-decode errors continue the
loop; a payload is dispatched, where an uncaught exception (the dispatch
has no handler for `TypeError`) escapes the whole function — modelled as
`Except.error`.  (The source interpolates the endpoint URL into the
method string; the model uses the constant prefix.) -/
def getUserDataJsonEndpoint : List EndpointResp → Except PyErr ExtractionResult
  | [] => .ok (.failure "All JSON endpoints failed")
  | .netFail :: rest => getUserDataJsonEndpoint rest
  | .badJson :: rest => getUserDataJsonEndpoint rest
  | .payload j :: rest =>
    match jsonEndpointParse j with
    | .error e => .error e
    | .ok (some d) => .ok (.success "JSON_Endpoint" d)
    | .ok none => getUserDataJsonEndpoint rest

/-! ### EmbeddedDataExtractor and HTML pipeline: `get_user_data_requests`
(source lines 26-79) -/

/-- A fetched profile page, as the core sees it: the `script` nodes'
string contents (`none` when BeautifulSoup's `.string` is `None`) and the
`content` attributes of the three OpenGraph meta tags. -/
structure Doc where
  scripts : List (Option String)
  ogTitle : Option String
  ogDescription : Option String
  ogImage : Option String

/-- Processing of one script node (loop body, source lines 42-54):
skip when `.string` is falsy or lacks the marker or the regex misses;
otherwise `json.loads` the matched group (an error escapes to the outer
handler), test `'entry_data' in shared and 'ProfilePage' in
shared['entry_data']` and on success navigate
`shared['entry_data']['ProfilePage'][0]['graphql']['user']`.
`ok none` means "continue with the next node". -/
def scanNode (s : Option String) : Except PyErr (Option Json) :=
  match s with
  | none => .ok none
  | some str =>
    if str.data.isEmpty then .ok none
    else if containsSub sharedMarker str.data then
      match searchShared str.data with
      | none => .ok none
      | some g =>
        match jsonLoads g with
        | .error e => .error e
        | .ok shared =>
          match pyIn "entry_data" shared with
          | .error e => .error e
          | .ok false => .ok none
          | .ok true =>
            match getItemStr shared "entry_data" with
            | .error e => .error e
            | .ok ed =>
              match pyIn "ProfilePage" ed with
              | .error e => .error e
              | .ok false => .ok none
              | .ok true =>
                match getItemStr ed "ProfilePage" with
                | .error e => .error e
                | .ok pp =>
                  match getIndex0 pp with
                  | .error e => .error e
                  | .ok p0 =>
                    match getItemStr p0 "graphql" with
                    | .error e => .error e
                    | .ok gq =>
                      match getItemStr gq "user" with
                      | .error e => .error e
                      | .ok u => .ok (some u)
    else .ok none

/-- The `for script in scripts:` loop: first node that yields a user wins;
an exception escapes; otherwise fall through. -/
def scanScripts : List (Option String) → Except PyErr (Option Json)
  | [] => .ok none
  | s :: rest =>
    match scanNode s with
    | .error e => .error e
    | .ok (some u) => .ok (some u)
    | .ok none => scanScripts rest

/-- `get_user_data_requests` after the HTTP layer (status 200 assumed):
Method 1 scans the script nodes — a hit returns `SharedData` success, an
exception is caught by the outer `except Exception` and becomes a
`Parsing failed` failure dict; Method 2 then tries the meta tags. -/
def getUserDataRequests (doc : Doc) : ExtractionResult :=
  match scanScripts doc.scripts with
  | .error e => .failure ("Parsing failed: " ++ pyErrMsg e)
  | .ok (some u) => .success "SharedData" (extractUserInfo u)
  | .ok none =>
    match extractMetaData doc.ogTitle doc.ogDescription doc.ogImage with
    | some md => .success "MetaTags" md
    | none => .failure "Could not extract user data from page"

/-! ### Concrete inputs used by the claims -/

/-- The title meta content of the spec's meta-tag example. -/
def c1Title : String := "Jane Doe (@janedoe)"

/-- The description meta content of the spec's meta-tag example. -/
def c1Desc : String := "1.2M Followers, 500 Following, 1,234 Posts"

/-- A script node whose `_sharedData` assignment is not valid JSON
(`window._sharedData = \x7bbad\x7d;`). -/
def c2BadScript : String := "window._sharedData = \x7bbad\x7d;"

/-- A page with that script node and a valid, non-empty title meta tag. -/
def c2Doc : Doc := ⟨[some c2BadScript], some "T", none, none⟩

/-- One 200-status endpoint response whose payload maps `graphql` to a
number. -/
def c3Resps : List EndpointResp := [.payload (.obj [("graphql", .num 5)])]

/-- A raw user object whose follower container carries the given count. -/
def c6Raw (v : Json) : Json := .obj [("edge_followed_by", .obj [("count", v)])]

/-- The record `_extract_user_info` builds when only the follower count is
present (with the given value) and every other field defaults. -/
def c6Expected (v : Json) : Json :=
  .obj [("id", .null), ("username", .null), ("full_name", .null), ("biography", .null),
    ("followers", v), ("following", .num 0), ("posts", .num 0), ("profile_pic", .null),
    ("is_verified", .bool false), ("is_business", .bool false), ("external_url", .null),
    ("is_private", .bool false)]

/-- A payload whose `graphql.user` is `null` while `data.user` holds a
real user object. -/
def c7Payload : Json :=
  .obj [("graphql", .obj [("user", .null)]),
    ("data", .obj [("user", .obj [("username", .str "x")])])]

/-- The spec's `data.user` example payload. -/
def c9Payload : Json :=
  .obj [("data", .obj [("user", .obj [("username", .str "x"), ("is_verified", .bool true)])])]

/-! ### Error-classification lemmas for the JSON endpoint path -/

/-- A dict whose key test succeeds has a binding for that key. -/
theorem dictFind_isSome_of_any (kvs : List (String × Json)) (k : String)
    (h : kvs.any (fun kv => kv.1 == k) = true) : ∃ v, dictFind kvs k = some v := by
  induction kvs with
  | nil => simp at h
  | cons kv rest ih =>
    cases hd : dictFind rest k with
    | some v => exact ⟨v, by simp [dictFind, hd]⟩
    | none =>
      have hk : (kv.1 == k) = true := by
        cases hor : rest.any (fun kv => kv.1 == k) with
        | true =>
          obtain ⟨v, hv⟩ := ih hor
          rw [hv] at hd
          cases hd
        | false =>
          rw [List.any_cons, hor] at h
          simpa using h
      exact ⟨kv.2, by simp [dictFind, hd, hk]⟩

/-- The only exception a membership test raises is `TypeError`. -/
theorem pyIn_error (k : String) (v : Json) (e : PyErr)
    (h : pyIn k v = .error e) : e = .typeErr := by
  cases v <;> simp_all [pyIn]

/-- After a successful membership test, indexing with the same key either
succeeds (dicts) or raises `TypeError` (strings, lists). -/
theorem pyIn_true_getItem (k : String) (v : Json) (h : pyIn k v = .ok true) :
    getItemStr v k = .error .typeErr ∨ ∃ w, getItemStr v k = .ok w := by
  cases v with
  | obj kvs =>
    right
    have ha : kvs.any (fun kv => kv.1 == k) = true := by simpa [pyIn] using h
    obtain ⟨w, hw⟩ := dictFind_isSome_of_any kvs k ha
    exact ⟨w, by simp [getItemStr, hw]⟩
  | str s => left; rfl
  | arr l => left; rfl
  | null => simp [pyIn] at h
  | bool b => simp [pyIn] at h
  | num q => simp [pyIn] at h

/-- The only exception the two-key shape test raises is `TypeError`. -/
theorem branchCheck_error (d : Json) (k : String) (e : PyErr)
    (h : branchCheck d k = .error e) : e = .typeErr := by
  cases hp : pyIn k d with
  | error e1 =>
    simp only [branchCheck, hp] at h
    injection h with h2
    exact h2 ▸ pyIn_error k d e1 hp
  | ok b =>
    cases b with
    | false => simp [branchCheck, hp] at h
    | true =>
      cases hg : getItemStr d k with
      | error e2 =>
        simp only [branchCheck, hp, hg] at h
        injection h with h2
        rcases pyIn_true_getItem k d hp with h1 | ⟨w, hw⟩
        · rw [hg] at h1
          injection h1 with h3
          exact h2 ▸ h3
        · rw [hw] at hg
          cases hg
      | ok v =>
        simp only [branchCheck, hp, hg] at h
        exact pyIn_error "user" v e h

/-- A successful two-key shape test yields the inner value and a
successful `'user' in` test on it. -/
theorem branchCheck_true (d : Json) (k : String)
    (h : branchCheck d k = .ok true) :
    ∃ v, getItemStr d k = .ok v ∧ pyIn "user" v = .ok true := by
  cases hp : pyIn k d with
  | error e1 => simp [branchCheck, hp] at h
  | ok b =>
    cases b with
    | false => simp [branchCheck, hp] at h
    | true =>
      cases hg : getItemStr d k with
      | error e2 => simp [branchCheck, hp, hg] at h
      | ok v => exact ⟨v, rfl, by simpa [branchCheck, hp, hg] using h⟩

/-- The only exception the per-payload dispatch raises is `TypeError`. -/
theorem jsonEndpointParse_error (d : Json) (e : PyErr)
    (h : jsonEndpointParse d = .error e) : e = .typeErr := by
  cases hb : branchCheck d "graphql" with
  | error e1 =>
    simp only [jsonEndpointParse, hb] at h
    injection h with h2
    exact h2 ▸ branchCheck_error d "graphql" e1 hb
  | ok b =>
    cases b with
    | true =>
      obtain ⟨v, hv, hu⟩ := branchCheck_true d "graphql" hb
      cases hg2 : getItemStr v "user" with
      | error e2 =>
        simp only [jsonEndpointParse, hb, hv, hg2] at h
        injection h with h2
        rcases pyIn_true_getItem "user" v hu with h1 | ⟨w, hw⟩
        · rw [hg2] at h1
          injection h1 with h3
          exact h2 ▸ h3
        · rw [hw] at hg2
          cases hg2
      | ok u => simp [jsonEndpointParse, hb, hv, hg2] at h
    | false =>
      cases hb2 : branchCheck d "data" with
      | error e1 =>
        simp only [jsonEndpointParse, hb, hb2] at h
        injection h with h2
        exact h2 ▸ branchCheck_error d "data" e1 hb2
      | ok b2 =>
        cases b2 with
        | true =>
          obtain ⟨v, hv, hu⟩ := branchCheck_true d "data" hb2
          cases hg2 : getItemStr v "user" with
          | error e2 =>
            simp only [jsonEndpointParse, hb, hb2, hv, hg2] at h
            injection h with h2
            rcases pyIn_true_getItem "user" v hu with h1 | ⟨w, hw⟩
            · rw [hg2] at h1
              injection h1 with h3
              exact h2 ▸ h3
            · rw [hw] at hg2
              cases hg2
          | ok u => simp [jsonEndpointParse, hb, hb2, hv, hg2] at h
        | false => simp [jsonEndpointParse, hb, hb2] at h

/-- The only exception `get_user_data_json_endpoint` lets escape is
`TypeError`. -/
theorem getUserDataJsonEndpoint_error (resps : List EndpointResp) (e : PyErr)
    (h : getUserDataJsonEndpoint resps = .error e) : e = .typeErr := by
  induction resps with
  | nil => simp [getUserDataJsonEndpoint] at h
  | cons r rest ih =>
    cases r with
    | netFail => exact ih (by simpa [getUserDataJsonEndpoint] using h)
    | badJson => exact ih (by simpa [getUserDataJsonEndpoint] using h)
    | payload j =>
      cases hp : jsonEndpointParse j with
      | error e1 =>
        simp only [getUserDataJsonEndpoint, hp] at h
        injection h with h2
        exact h2 ▸ jsonEndpointParse_error j e1 hp
      | ok o =>
        cases o with
        | some d => simp [getUserDataJsonEndpoint, hp] at h
        | none => exact ih (by simpa [getUserDataJsonEndpoint, hp] using h)

/-! ### CountParser suffix lemmas -/

/-- Appending `'K'` selects the 1000 multiplier and strips the suffix. -/
theorem suffixSplit_concat_K (cs : List Char) : suffixSplit (cs ++ ['K']) = (1000, cs) := by
  simp [suffixSplit, endsC, List.getLast?_concat, List.dropLast_concat]

/-- Appending `'M'` selects the 1000000 multiplier and strips the suffix. -/
theorem suffixSplit_concat_M (cs : List Char) : suffixSplit (cs ++ ['M']) = (1000000, cs) := by
  simp [suffixSplit, endsC, List.getLast?_concat, List.dropLast_concat]

/-- Appending `'B'` selects the 1000000000 multiplier and strips the suffix. -/
theorem suffixSplit_concat_B (cs : List Char) :
    suffixSplit (cs ++ ['B']) = (1000000000, cs) := by
  simp [suffixSplit, endsC, List.getLast?_concat, List.dropLast_concat]

/-- `_convert_count` on a comma-free numeric string with one trailing
suffix character: the remainder's exact value scaled by the multiplier,
truncated. -/
theorem convertCount_concat (cs : List Char) (m : Int) (p : Nat) (X : Char) (mult : Int)
    (hX : ¬ X = ',') (hsplit : suffixSplit (cs ++ [X]) = (mult, cs))
    (h1 : stripCommas cs = cs) (h2 : parseFloatChars cs = some (m, p)) :
    convertCount (some (String.mk (cs ++ [X]))) = Int.tdiv (m * mult) ((10 : Int) ^ p) := by
  have hstrip : stripCommas (cs ++ [X]) = cs ++ [X] := by
    unfold stripCommas at h1 ⊢
    rw [List.filter_append, h1]
    simp [hX]
  have hne : (cs ++ [X]).isEmpty = false := by simp
  simp only [convertCount, String.mk, hne, Bool.false_eq_true, if_false, hstrip,
    convertCountAfter, hsplit, h2]

/-! ### The claims -/

/-- C1 (counterexample): on the spec's example document
(title `Jane Doe (@janedoe)`, description
`1.2M Followers, 500 Following, 1,234 Posts`) the username field of the
record `_extract_meta_data` returns is `Jane Doejanedoe`, not `Jane Doe`:
`replace(' (@', '')` deletes only the three wrapper characters and
`replace(')', '')` deletes the parenthesis, leaving the handle glued to
the display name. -/
theorem c1_counterexample :
    (extractMetaData (some c1Title) (some c1Desc) none).map (fun r => getField r "username")
      = some (some (.str "Jane Doejanedoe"))
    ∧ ("Jane Doejanedoe" : String) ≠ "Jane Doe" :=
  ⟨rfl, by decide⟩

/-- C1 (amended): on that document `_extract_meta_data` returns the record
with username `Jane Doejanedoe` (the handle-stripping is lossy), biography
the raw description, followers 1200000, following 500 and posts 1234. -/
theorem c1_amended :
    extractMetaData (some c1Title) (some c1Desc) none
      = some (.obj [("username", .str "Jane Doejanedoe"), ("biography", .str c1Desc),
          ("profile_pic", .null), ("followers", .num (intQ 1200000)),
          ("following", .num (intQ 500)), ("posts", .num (intQ 1234))]) := rfl

/-- C2 (counterexample): a document whose only script node carries the
`_sharedData` marker with malformed JSON is not skipped: the
`json.loads` exception escapes the scanning loop to the outer handler, so
`get_user_data_requests` returns the `Parsing failed` failure dict and
never tries the meta tags — although the same document's meta tags would
have extracted successfully. -/
theorem c2_counterexample :
    getUserDataRequests c2Doc = .failure ("Parsing failed: " ++ pyErrMsg .jsonDecodeErr)
    ∧ (extractMetaData c2Doc.ogTitle c2Doc.ogDescription c2Doc.ogImage).isSome = true :=
  ⟨rfl, rfl⟩

/-- C2 (amended): a script node on which the scan merely misses (no
marker, no regex match, or parsed JSON lacking the `entry_data` /
`ProfilePage` keys) is skipped and scanning continues with the remaining
nodes; but a JSON parse error or a navigation error on a node aborts the
whole HTML extraction with a `Parsing failed` failure, without trying the
meta-tag extractor on the same document. -/
theorem c2_amended :
    (∀ (s : Option String) (rest : List (Option String)),
      scanNode s = .ok none → scanScripts (s :: rest) = scanScripts rest)
    ∧ (∀ (s : Option String) (rest : List (Option String)) (e : PyErr),
      scanNode s = .error e → scanScripts (s :: rest) = .error e)
    ∧ (∀ (doc : Doc) (e : PyErr), scanScripts doc.scripts = .error e →
      getUserDataRequests doc = .failure ("Parsing failed: " ++ pyErrMsg e)) := by
  refine ⟨?_, ?_, ?_⟩
  · intro s rest h
    simp [scanScripts, h]
  · intro s rest e h
    simp [scanScripts, h]
  · intro doc e h
    simp [getUserDataRequests, h]

/-- C2 (witness): the amended behaviour at the concrete document. -/
theorem c2_amended_witness :
    getUserDataRequests c2Doc = .failure ("Parsing failed: " ++ pyErrMsg PyErr.jsonDecodeErr) :=
  c2_amended.2.2 c2Doc PyErr.jsonDecodeErr rfl

/-- C3 (counterexample): a 200-status payload mapping `graphql` to the
number 5 makes `'user' in data['graphql']` raise `TypeError`, which no
handler in `get_user_data_json_endpoint` catches — the call raises
instead of returning a Success or Failure value. -/
theorem c3_counterexample : getUserDataJsonEndpoint c3Resps = .error PyErr.typeErr := rfl

/-- C3 (amended): `get_user_data_json_endpoint` either returns a result
dict or lets precisely a `TypeError` escape (raised by the membership
tests when a top-level key such as `graphql` or `data` holds a
non-container value); every other parsing exception is caught and turned
into a strategy miss. -/
theorem c3_amended : ∀ resps : List EndpointResp,
    (∃ r, getUserDataJsonEndpoint resps = .ok r)
    ∨ getUserDataJsonEndpoint resps = .error PyErr.typeErr := by
  intro resps
  cases h : getUserDataJsonEndpoint resps with
  | ok r => exact Or.inl ⟨r, rfl⟩
  | error e =>
    have he := getUserDataJsonEndpoint_error resps e h
    subst he
    exact Or.inr rfl

/-- C4 (counterexample): the suffix tests of `_convert_count` are
case-sensitive `endswith` calls, so `1.2m` is not scaled: the trailing
`m` reaches `float`, which fails, and the result is 0, not 1200000. -/
theorem c4_counterexample :
    convertCount (some "1.2m") = 0 ∧ (0 : Int) ≠ 1200000 := ⟨by decide, by decide⟩

/-- C4 (amended): `_convert_count` recognizes only the uppercase trailing
suffixes `K`, `M`, `B` (multipliers 1000, 1000000, 1000000000); a
lowercase suffix is not recognized, the remainder fails the numeric parse
and the result is 0; a string with no suffix is multiplied by 1. -/
theorem c4_amended :
    (∀ (cs : List Char) (m : Int) (p : Nat),
      stripCommas cs = cs → parseFloatChars cs = some (m, p) →
      convertCount (some (String.mk (cs ++ ['K']))) = Int.tdiv (m * 1000) ((10 : Int) ^ p)
      ∧ convertCount (some (String.mk (cs ++ ['M']))) = Int.tdiv (m * 1000000) ((10 : Int) ^ p)
      ∧ convertCount (some (String.mk (cs ++ ['B']))) = Int.tdiv (m * 1000000000) ((10 : Int) ^ p))
    ∧ convertCount (some "1.2m") = 0 ∧ convertCount (some "3k") = 0
    ∧ convertCount (some "2b") = 0 ∧ convertCount (some "500") = 500 := by
  refine ⟨?_, by decide, by decide, by decide, by decide⟩
  intro cs m p h1 h2
  exact ⟨convertCount_concat cs m p 'K' 1000 (by decide) (suffixSplit_concat_K cs) h1 h2,
    convertCount_concat cs m p 'M' 1000000 (by decide) (suffixSplit_concat_M cs) h1 h2,
    convertCount_concat cs m p 'B' 1000000000 (by decide) (suffixSplit_concat_B cs) h1 h2⟩

/-- C4 (witness): the amended statement at `1.2` + `K`. -/
theorem c4_amended_witness :
    convertCount (some (String.mk (['1', '.', '2'] ++ ['K']))) = Int.tdiv (12 * 1000) ((10 : Int) ^ 1) :=
  (c4_amended.1 ['1', '.', '2'] 12 1 (by decide) (by decide)).1

/-- C5: `_convert_count` degrades silently: `None` and the empty string
return 0, any remainder the float parse rejects returns 0, and the valid
inputs of the claim evaluate as stated (truncation toward zero). -/
theorem c5_theorem :
    convertCount none = 0 ∧ convertCount (some "") = 0
    ∧ (∀ cs : List Char, parseFloatChars (suffixSplit (stripCommas cs)).2 = none →
        convertCount (some (String.mk cs)) = 0)
    ∧ convertCount (some "1.2M") = 1200000 ∧ convertCount (some "500") = 500
    ∧ convertCount (some "2,345") = 2345 ∧ convertCount (some "abc") = 0 := by
  refine ⟨rfl, rfl, ?_, by decide, by decide, by decide, by decide⟩
  intro cs h
  cases cs with
  | nil => rfl
  | cons c t => simp [convertCount, convertCountAfter, h]

/-- C5 (witness): the parse-failure arm at the concrete input `abc`. -/
theorem c5_witness : convertCount (some (String.mk ['a', 'b', 'c'])) = 0 :=
  c5_theorem.2.2.1 ['a', 'b', 'c'] (by decide)

/-- C6 (counterexample): a raw user object whose
`edge_followed_by.count` is `-5` yields a record whose followers field is
`-5` — the raw count is passed through unvalidated, so the produced
followers value is not a non-negative integer. -/
theorem c6_counterexample :
    getField (extractUserInfo (c6Raw (.num (-5)))) "followers" = some (.num (-5))
    ∧ ((-5 : ℚ) < 0) := ⟨rfl, by norm_num⟩

/-- C6 (amended): when a count container or its `count` sub-field is
absent, 0 is substituted; when both are present, the raw count value —
whatever it is — is passed through unchanged, so the non-negativity of
the produced counts holds only if the raw counts are non-negative. -/
theorem c6_amended : ∀ v : Json,
    extractUserInfo (c6Raw v) = c6Expected v
    ∧ extractUserInfo (.obj []) = c6Expected (.num 0) := by
  intro v
  exact ⟨rfl, rfl⟩

/-- C7 (counterexample): on a payload whose `graphql.user` is `null` and
whose `data.user` is a real user object, the `graphql` branch wins (the
code tests only key presence, never non-nullness): the call returns the
normalizer applied to `null`, i.e. `null` itself, not a record carrying
the `data.user` username. -/
theorem c7_counterexample :
    jsonEndpointParse c7Payload = .ok (some Json.null)
    ∧ getField (extractUserInfo (.obj [("username", .str "x")])) "username"
        = some (.str "x") :=
  ⟨rfl, rfl⟩

/-- C7 (amended): the `graphql.user` path is tried before the `data.user`
path, but the test is key presence only — a present `graphql.user` wins
even when it is `null`; when neither shape's keys are present the
dispatch yields absent. -/
theorem c7_amended :
    (∀ (gu d : Json),
      jsonEndpointParse (.obj [("graphql", .obj [("user", gu)]), ("data", d)])
        = .ok (some (extractUserInfo gu)))
    ∧ (∀ du : Json, jsonEndpointParse (.obj [("data", .obj [("user", du)])])
        = .ok (some (extractUserInfo du)))
    ∧ jsonEndpointParse (.obj []) = .ok none := by
  refine ⟨?_, ?_, rfl⟩
  · intro gu d
    rfl
  · intro du
    rfl

/-- C8: whenever the body of `_extract_user_info` raises (any unexpected
shape makes a `.get` raise `AttributeError`), the `except` arm returns
the raw input object unchanged. -/
theorem c8_theorem : ∀ (u : Json) (e : PyErr),
    extractUserInfoBody u = .error e → extractUserInfo u = u := by
  intro u e h
  simp [extractUserInfo, h]

/-- C8 (witness): the raw object `5` (whose `.get` raises) comes back
unchanged. -/
theorem c8_witness : extractUserInfo (Json.num 5) = Json.num 5 :=
  c8_theorem (Json.num 5) PyErr.attrErr rfl

/-- C9: the `data.user` example payload yields the normalized record with
username `x`, is_verified `true` and followers 0 (all other fields at
their defaults), and the empty payload yields absent. -/
theorem c9_theorem :
    jsonEndpointParse c9Payload
      = .ok (some (.obj [("id", .null), ("username", .str "x"), ("full_name", .null),
          ("biography", .null), ("followers", .num 0), ("following", .num 0),
          ("posts", .num 0), ("profile_pic", .null), ("is_verified", .bool true),
          ("is_business", .bool false), ("external_url", .null),
          ("is_private", .bool false)]))
    ∧ jsonEndpointParse (.obj []) = .ok none :=
  ⟨rfl, rfl⟩

/-- C10: a present `og:title` tag whose content is the empty string fails
the `if username:` truthiness gate, so `_extract_meta_data` yields absent
whatever the description and image tags hold. -/
theorem c10_theorem : ∀ (d i : Option String), extractMetaData (some "") d i = none := by
  intro d i
  rfl
